import Mathlib

/-!
# The thread example `examples/main.c` of org.eclipse.lsp4e.debug

A shallow embedding of the C program: the worker body `doSomeThing` as a
function of the memory its argument points into, and `main` as a deterministic
step function over an explicit machine state (program location, loop variable,
the two global arrays, the local `err`, the calls made so far).  The library
primitives (`setvbuf`, `pthread_create`, `pthread_join`, `strerror`) are taken
as parameters: an environment assigns an outcome to every call.
-/

namespace ThreadExample

/-! ## Constants and basic types -/

/-- The macro `NUMTHREADS` (line 17). -/
def NUMTHREADS : Nat := 3

/-- The largest value of a C `int` (32 bits). -/
def INT_MAX : Int := 2147483647

/-- The bound `0xfffffff` of the busy loop (line 27). -/
def BUSY_BOUND : Int := 0xfffffff

/-- A thread identifier `pthread_t`, an opaque number. -/
abbrev Handle := Nat

/-- What one call of `pthread_create` does: the value it returns, and the
identifier it writes through its first argument (`none`: nothing written). -/
structure CreateOutcome where
  ret : Int
  stored : Option Handle
deriving DecidableEq, Repr

/-- The outcomes of the library calls.  `create c i` and `join c i` are the
outcomes of the calls made for index `i` in cycle number `c`. -/
structure Env where
  setvbufRet : Int
  strerror : Int → String
  create : Nat → Nat → CreateOutcome
  join : Nat → Nat → Int

/-- A call main makes, as seen from outside.  `create t a` is
`pthread_create(&tid[t], NULL, &doSomeThing, &threadNums[a])`; `join i h` is
`pthread_join(tid[i], NULL)` where `tid[i]` held `h`; `print s` is a `printf`
whose formatted text is `s`; `sleep n` is `sleep(n)`. -/
inductive Action where
  | setvbuf
  | create (tidSlot : Nat) (argSlot : Nat)
  | join (slot : Nat) (h : Handle)
  | print (s : String)
  | sleep (secs : Nat)
deriving DecidableEq, Repr

/-- The conversion `%d` of `printf`. -/
def fmtD (v : Int) : String := toString v

/-! ## The worker body (lines 22-32) -/

/-- The loop `for (int i = 0; i < 0xfffffff; i++) ;` started at counter value
`i` with `iters` iterations already done.  The result is the final counter and
the number of iterations, or `none` if `i++` would leave the range of `int`. -/
def busyLoop (i : Int) (iters : Nat) : Option (Int × Nat) :=
  if i < BUSY_BOUND then
    if i + 1 ≤ INT_MAX then busyLoop (i + 1) (iters + 1) else none
  else some (i, iters)
termination_by (BUSY_BOUND - i).toNat
decreasing_by
  simp_wf
  omega

/-- What a finished call of `doSomeThing` has done: its return value (`none`
is `NULL`), the texts it printed in order, and the iterations of its loop. -/
structure WorkerResult where
  ret : Option Nat
  out : List String
  iters : Nat
deriving DecidableEq, Repr

/-- The function `doSomeThing` (lines 22-32).  Its argument points at element
`arg` of the array `threadNums`; `none` stands for undefined behaviour (a read
outside the array, or overflow of the loop counter). -/
def doSomeThing (threadNums : List Int) (arg : Nat) : Option WorkerResult :=
  match threadNums[arg]? with
  | none => none
  | some threadNum =>
    let line1 := "Running thread " ++ fmtD threadNum ++ "\n"
    match busyLoop 0 0 with
    | none => none
    | some (_, n) =>
      let line2 := "Finishing thread " ++ fmtD threadNum ++ "\n"
      some { ret := none, out := [line1, line2], iters := n }

/-! ## The main thread (lines 34-71) -/

/-- The program locations of `main`. -/
inductive Loc where
  | start          -- line 35-38: setvbuf and its report
  | cycleStart     -- line 41 / 43: loop head, `int i = 0`
  | spawnTest      -- line 43: `i < NUMTHREADS`
  | spawnWrite     -- line 44
  | spawnCreate    -- line 45
  | spawnReport    -- lines 46-50 and `i++`
  | printJoining   -- line 53 and `int i = 0` of line 54
  | joinTest       -- line 54: `i < NUMTHREADS`
  | joinCall       -- line 55
  | joinReport     -- lines 56-60 and `i++`
  | printSleeping  -- line 63
  | sleepCall      -- line 64
  | printDone      -- line 69
  | returning      -- line 70
  | exited
deriving DecidableEq, Repr

/-- The state of the main thread.  `cycle` counts the completed cycles and
`trace` lists the calls made so far; `ret` is the value main returned. -/
structure State where
  loc : Loc
  i : Nat
  err : Int
  cycle : Nat
  tid : List Handle
  threadNums : List Int
  trace : List Action
  ret : Option Int
deriving DecidableEq, Repr

/-- The state in which `main` is entered: the globals are zero-initialised. -/
def init : State :=
  { loc := Loc.start, i := 0, err := 0, cycle := 0,
    tid := List.replicate NUMTHREADS 0,
    threadNums := List.replicate NUMTHREADS 0,
    trace := [], ret := none }

/-- The write of `pthread_create` through `&tid[i]`. -/
def storeHandle (tid : List Handle) (i : Nat) (o : CreateOutcome) : List Handle :=
  match o.stored with
  | some h => tid.set i h
  | none => tid

/-- The text printed at lines 46-50. -/
def createLine (env : Env) (err : Int) (i : Nat) : String :=
  if err ≠ 0 then
    "Failed to create thread " ++ fmtD i ++ ": " ++ env.strerror err ++ "\n"
  else
    "Created thread " ++ fmtD i ++ "\n"

/-- The text printed at lines 56-60. -/
def joinLine (env : Env) (err : Int) (i : Nat) : String :=
  if err ≠ 0 then
    "Failed to join thread " ++ fmtD i ++ ": " ++ env.strerror err ++ "\n"
  else
    "Joined thread " ++ fmtD i ++ "\n"

/-- The calls of lines 35-38. -/
def setvbufActs (env : Env) : List Action :=
  if env.setvbufRet ≠ 0 then
    [Action.setvbuf,
      Action.print ("Failed to setvbuf: " ++ env.strerror env.setvbufRet ++ "\n")]
  else [Action.setvbuf]

/-- One step of `main`.  `FOREVER` says whether the macro of line 16 is
defined. -/
def step (FOREVER : Bool) (env : Env) (s : State) : State :=
  match s.loc with
  | Loc.start =>
    { s with loc := Loc.cycleStart, err := env.setvbufRet,
             trace := s.trace ++ setvbufActs env }
  | Loc.cycleStart => { s with loc := Loc.spawnTest, i := 0 }
  | Loc.spawnTest =>
    if s.i < NUMTHREADS then { s with loc := Loc.spawnWrite }
    else { s with loc := Loc.printJoining }
  | Loc.spawnWrite =>
    { s with loc := Loc.spawnCreate, threadNums := s.threadNums.set s.i (s.i : Int) }
  | Loc.spawnCreate =>
    let o := env.create s.cycle s.i
    { s with loc := Loc.spawnReport, err := o.ret,
             tid := storeHandle s.tid s.i o,
             trace := s.trace ++ [Action.create s.i s.i] }
  | Loc.spawnReport =>
    { s with loc := Loc.spawnTest, i := s.i + 1,
             trace := s.trace ++ [Action.print (createLine env s.err s.i)] }
  | Loc.printJoining =>
    { s with loc := Loc.joinTest, i := 0,
             trace := s.trace ++ [Action.print "Joining threads\n"] }
  | Loc.joinTest =>
    if s.i < NUMTHREADS then { s with loc := Loc.joinCall }
    else if FOREVER then { s with loc := Loc.printSleeping }
    else { s with loc := Loc.printDone }
  | Loc.joinCall =>
    { s with loc := Loc.joinReport, err := env.join s.cycle s.i,
             trace := s.trace ++ [Action.join s.i (s.tid.getD s.i 0)] }
  | Loc.joinReport =>
    { s with loc := Loc.joinTest, i := s.i + 1,
             trace := s.trace ++ [Action.print (joinLine env s.err s.i)] }
  | Loc.printSleeping =>
    { s with loc := Loc.sleepCall,
             trace := s.trace ++ [Action.print "Sleeping before restarting.\n"] }
  | Loc.sleepCall =>
    { s with loc := Loc.cycleStart, cycle := s.cycle + 1,
             trace := s.trace ++ [Action.sleep 3] }
  | Loc.printDone =>
    { s with loc := Loc.returning,
             trace := s.trace ++ [Action.print "Main thread done\n"] }
  | Loc.returning => { s with loc := Loc.exited, ret := some 0 }
  | Loc.exited => s

/-- The state after `n` steps from `s`. -/
def run (FOREVER : Bool) (env : Env) : Nat → State → State
  | 0, s => s
  | n + 1, s => run FOREVER env n (step FOREVER env s)

/-- The function `main` (lines 34-71): its state after `n` steps from entry. -/
def main (FOREVER : Bool) (env : Env) (n : Nat) : State :=
  run FOREVER env n init

/-- The states main can be in. -/
def Reachable (FOREVER : Bool) (env : Env) (s : State) : Prop :=
  ∃ n, main FOREVER env n = s

/-- The texts printed, in order. -/
def lines : List Action → List String
  | [] => []
  | Action.print s :: rest => s :: lines rest
  | _ :: rest => lines rest

/-- The indices of the `pthread_create` calls in a list of calls, in order. -/
def createSlots : List Action → List Nat
  | [] => []
  | Action.create t _ :: rest => t :: createSlots rest
  | _ :: rest => createSlots rest

/-- The indices of the `pthread_join` calls in a list of calls, in order. -/
def joinSlots : List Action → List Nat
  | [] => []
  | Action.join i _ :: rest => i :: joinSlots rest
  | _ :: rest => joinSlots rest

/-- Whether a call is a `pthread_create`. -/
def isCreate : Action → Bool
  | Action.create _ _ => true
  | _ => false

/-- The locations at or after the statement of line 69. -/
def Loc.atOrPastDone : Loc → Bool
  | Loc.printDone => true
  | Loc.returning => true
  | Loc.exited => true
  | _ => false

/-- The locations of the spawn loop (lines 43-51). -/
def Loc.inSpawn : Loc → Bool
  | Loc.spawnTest => true
  | Loc.spawnWrite => true
  | Loc.spawnCreate => true
  | Loc.spawnReport => true
  | _ => false

/-- The locations of the join loop (lines 54-61). -/
def Loc.inJoin : Loc → Bool
  | Loc.joinTest => true
  | Loc.joinCall => true
  | Loc.joinReport => true
  | _ => false

/-! ## Closed forms of the calls of a cycle -/

/-- The calls of the spawn loop of cycle `c`, in order. -/
def spawnActs (env : Env) (c : Nat) : List Action :=
  (List.range NUMTHREADS).flatMap fun i =>
    [Action.create i i, Action.print (createLine env (env.create c i).ret i)]

/-- The array `tid` after the spawn loop of cycle `c`, entered with `tid`. -/
def tidAfterSpawn (env : Env) (c : Nat) (tid : List Handle) : List Handle :=
  (List.range NUMTHREADS).foldl (fun t i => storeHandle t i (env.create c i)) tid

/-- The calls of the join loop of cycle `c`, entered with the array `tid`. -/
def joinActs (env : Env) (c : Nat) (tid : List Handle) : List Action :=
  (List.range NUMTHREADS).flatMap fun i =>
    [Action.join i (tid.getD i 0), Action.print (joinLine env (env.join c i) i)]

/-- The calls of cycle `c` up to its last join report, entered with `tid`. -/
def cycleActs (env : Env) (c : Nat) (tid : List Handle) : List Action :=
  spawnActs env c ++ [Action.print "Joining threads\n"] ++
    joinActs env c (tidAfterSpawn env c tid)

/-- The calls of lines 63-64. -/
def pauseActs : List Action :=
  [Action.print "Sleeping before restarting.\n", Action.sleep 3]

/-- The array `tid` at the start of cycle `k` of the repeating program. -/
def tidAt (env : Env) : Nat → List Handle
  | 0 => init.tid
  | k + 1 => tidAfterSpawn env k (tidAt env k)

/-- The calls of the repeating program up to the start of cycle `k`. -/
def traceAt (env : Env) : Nat → List Action
  | 0 => setvbufActs env
  | k + 1 => traceAt env k ++ cycleActs env k (tidAt env k) ++ pauseActs

/-- The first eleven characters of a text: enough to tell the kinds of line
of this program apart. -/
def key (s : String) : List Char := s.data.take 11

/-! ## Sample environments and states -/

/-- An environment in which every call succeeds; creation number `i` of cycle
`c` stores the identifier `100 * c + i + 1`. -/
def envOk : Env :=
  { setvbufRet := 0, strerror := fun _ => "Unknown error",
    create := fun c i => { ret := 0, stored := some (100 * c + i + 1) },
    join := fun _ _ => 0 }

/-- As `envOk`, but `setvbuf` fails. -/
def envSetvbufFail : Env :=
  { envOk with setvbufRet := -1 }

/-- An environment in which the creation of index 1 fails with error 11 and
stores nothing, and the join of index 1 fails with error 3, in every cycle. -/
def envFail1 : Env :=
  { setvbufRet := 0,
    strerror := fun e =>
      if e = 11 then "Resource temporarily unavailable"
      else if e = 3 then "No such process" else "Unknown error",
    create := fun c i =>
      if i = 1 then { ret := 11, stored := none }
      else { ret := 0, stored := some (100 * c + i + 1) },
    join := fun _ i => if i = 1 then 3 else 0 }

/-- An environment in which the creations of cycle 0 succeed and store
`base + i + 1`, and in cycle 1 the creation of index 1 fails with error 11 and
stores nothing and the join of index 1 fails with error 3; the outcomes of
cycle 1 do not depend on `base`. -/
def envStale (base : Nat) : Env :=
  { setvbufRet := 0,
    strerror := fun e =>
      if e = 11 then "Resource temporarily unavailable"
      else if e = 3 then "No such process" else "Unknown error",
    create := fun c i =>
      if c = 0 then { ret := 0, stored := some (base + i + 1) }
      else if i = 1 then { ret := 11, stored := none }
      else { ret := 0, stored := some (100 * c + i + 1) },
    join := fun c i => if c = 0 then 0 else if i = 1 then 3 else 0 }

/-- A state at the head of a cycle whose arrays hold `h` and `v` everywhere. -/
def cycleEntry (c : Nat) (h : Handle) (v : Int) : State :=
  { loc := Loc.cycleStart, i := 0, err := 0, cycle := c,
    tid := [h, h, h], threadNums := [v, v, v], trace := [], ret := none }

/-- A state at the first test of the spawn loop. -/
def spawnEntry : State :=
  { cycleEntry 0 0 0 with loc := Loc.spawnTest, trace := [Action.setvbuf] }

/-- A state at the first test of the join loop, the creation of index 1 having
failed. -/
def joinEntry : State :=
  { cycleEntry 0 0 0 with loc := Loc.joinTest, tid := [1, 0, 3], threadNums := [0, 1, 2] }

/-! ## Running the machine -/

theorem run_add (F : Bool) (env : Env) (a b : Nat) (s : State) :
    run F env (a + b) s = run F env b (run F env a s) := by
  induction a generalizing s with
  | zero => simp [run]
  | succ n ih =>
    rw [Nat.succ_add]
    simp only [run]
    exact ih _

theorem spawnActs_eq (env : Env) (c : Nat) :
    spawnActs env c =
      [Action.create 0 0, Action.print (createLine env (env.create c 0).ret 0),
       Action.create 1 1, Action.print (createLine env (env.create c 1).ret 1),
       Action.create 2 2, Action.print (createLine env (env.create c 2).ret 2)] := rfl

theorem tidAfterSpawn_eq (env : Env) (c : Nat) (tid : List Handle) :
    tidAfterSpawn env c tid =
      storeHandle (storeHandle (storeHandle tid 0 (env.create c 0)) 1 (env.create c 1)) 2
        (env.create c 2) := rfl

theorem joinActs_eq (env : Env) (c : Nat) (tid : List Handle) :
    joinActs env c tid =
      [Action.join 0 (tid.getD 0 0), Action.print (joinLine env (env.join c 0) 0),
       Action.join 1 (tid.getD 1 0), Action.print (joinLine env (env.join c 1) 1),
       Action.join 2 (tid.getD 2 0), Action.print (joinLine env (env.join c 2) 2)] := rfl

theorem spawn_phase_run (F : Bool) (env : Env) (s : State)
    (h : s.loc = Loc.spawnTest) (hi : s.i = 0) :
    run F env 13 s =
      { s with loc := Loc.printJoining, i := 3, err := (env.create s.cycle 2).ret,
               tid := tidAfterSpawn env s.cycle s.tid,
               threadNums := ((s.threadNums.set 0 0).set 1 1).set 2 2,
               trace := s.trace ++ spawnActs env s.cycle } := by
  obtain ⟨loc, i, err, cycle, tid, threadNums, trace, ret⟩ := s
  simp only at h hi
  subst h hi
  simp [run, step, NUMTHREADS, spawnActs_eq, tidAfterSpawn_eq]

theorem join_phase_run (F : Bool) (env : Env) (s : State)
    (h : s.loc = Loc.joinTest) (hi : s.i = 0) :
    run F env 10 s =
      { s with loc := if F then Loc.printSleeping else Loc.printDone,
               i := 3, err := env.join s.cycle 2,
               trace := s.trace ++ joinActs env s.cycle s.tid } := by
  obtain ⟨loc, i, err, cycle, tid, threadNums, trace, ret⟩ := s
  simp only at h hi
  subst h hi
  cases F <;> simp [run, step, NUMTHREADS, joinActs_eq]

theorem cycle_run (F : Bool) (env : Env) (s : State) (h : s.loc = Loc.cycleStart) :
    run F env 25 s =
      { s with loc := if F then Loc.printSleeping else Loc.printDone,
               i := 3, err := env.join s.cycle 2,
               tid := tidAfterSpawn env s.cycle s.tid,
               threadNums := ((s.threadNums.set 0 0).set 1 1).set 2 2,
               trace := s.trace ++ cycleActs env s.cycle s.tid } := by
  have e : (25 : Nat) = 1 + 13 + 1 + 10 := rfl
  rw [e, run_add, run_add, run_add]
  have h1 : run F env 1 s = { s with loc := Loc.spawnTest, i := 0 } := by
    simp [run, step, h]
  rw [h1, spawn_phase_run F env _ rfl rfl]
  have h2 : ∀ t : State, t.loc = Loc.printJoining → run F env 1 t =
      { t with loc := Loc.joinTest, i := 0,
               trace := t.trace ++ [Action.print "Joining threads\n"] } := by
    intro t ht
    simp [run, step, ht]
  rw [h2 _ rfl, join_phase_run F env _ rfl rfl]
  simp [cycleActs]

theorem cycle_run_forever (env : Env) (s : State) (h : s.loc = Loc.cycleStart) :
    run true env 27 s =
      { s with loc := Loc.cycleStart, i := 3, err := env.join s.cycle 2,
               cycle := s.cycle + 1,
               tid := tidAfterSpawn env s.cycle s.tid,
               threadNums := ((s.threadNums.set 0 0).set 1 1).set 2 2,
               trace := s.trace ++ cycleActs env s.cycle s.tid ++ pauseActs } := by
  have e : (27 : Nat) = 25 + 2 := rfl
  rw [e, run_add, cycle_run true env s h]
  simp [run, step, pauseActs]

theorem run_cycles (env : Env) (k : Nat) :
    (run true env (1 + 27 * k) init).loc = Loc.cycleStart ∧
    (run true env (1 + 27 * k) init).cycle = k ∧
    (run true env (1 + 27 * k) init).tid = tidAt env k ∧
    (run true env (1 + 27 * k) init).trace = traceAt env k := by
  induction k with
  | zero => simp [run, step, init, tidAt, traceAt]
  | succ k ih =>
    obtain ⟨h1, h2, h3, h4⟩ := ih
    have e : 1 + 27 * (k + 1) = (1 + 27 * k) + 27 := by ring
    rw [e, run_add, cycle_run_forever env _ h1]
    simp [h2, h3, h4, tidAt, traceAt]

theorem main_once_run (env : Env) :
    run false env 28 init =
      { init with loc := Loc.exited, i := 3, err := env.join 0 2,
                  tid := tidAfterSpawn env 0 init.tid,
                  threadNums := [0, 1, 2],
                  trace := setvbufActs env ++ cycleActs env 0 init.tid ++
                    [Action.print "Main thread done\n"],
                  ret := some 0 } := by
  have e : (28 : Nat) = 1 + 25 + 2 := rfl
  rw [e, run_add, run_add]
  have h1 : run false env 1 init =
      { init with loc := Loc.cycleStart, err := env.setvbufRet,
                  trace := setvbufActs env } := by
    simp [run, step, init]
  rw [h1, cycle_run false env _ rfl]
  simp [run, step, init, NUMTHREADS]

theorem run_exited (F : Bool) (env : Env) (n : Nat) (s : State) (h : s.loc = Loc.exited) :
    run F env n s = s := by
  induction n with
  | zero => rfl
  | succ n ih =>
    have hs : step F env s = s := by simp [step, h]
    simp only [run, hs, ih]


/-! ## Telling the lines apart -/

theorem key_createLine (env : Env) (e : Int) (i : Nat) :
    key (createLine env e i) = if e ≠ 0 then "Failed to c".data else "Created thr".data := by
  unfold createLine
  split <;> simp [key, List.take_append_of_le_length]

theorem key_joinLine (env : Env) (e : Int) (i : Nat) :
    key (joinLine env e i) = if e ≠ 0 then "Failed to j".data else "Joined thre".data := by
  unfold joinLine
  split <;> simp [key, List.take_append_of_le_length]

theorem key_setvbufLine (t : String) :
    key ("Failed to setvbuf: " ++ t ++ "\n") = "Failed to s".data := by
  simp [key, List.take_append_of_le_length]

theorem createLine_ne_joinLine (env : Env) (e e2 : Int) (i j : Nat) :
    createLine env e i ≠ joinLine env e2 j := by
  intro h
  have hk := congrArg key h
  rw [key_createLine, key_joinLine] at hk
  split at hk <;> split at hk <;> simp at hk

theorem createLine_ne_joining (env : Env) (e : Int) (i : Nat) :
    createLine env e i ≠ "Joining threads\n" := by
  intro h
  have hk := congrArg key h
  rw [key_createLine] at hk
  split at hk <;> simp [key] at hk

theorem createLine_ne_sleeping (env : Env) (e : Int) (i : Nat) :
    createLine env e i ≠ "Sleeping before restarting.\n" := by
  intro h
  have hk := congrArg key h
  rw [key_createLine] at hk
  split at hk <;> simp [key] at hk

theorem createLine_ne_done (env : Env) (e : Int) (i : Nat) :
    createLine env e i ≠ "Main thread done\n" := by
  intro h
  have hk := congrArg key h
  rw [key_createLine] at hk
  split at hk <;> simp [key] at hk

theorem joinLine_ne_joining (env : Env) (e : Int) (i : Nat) :
    joinLine env e i ≠ "Joining threads\n" := by
  intro h
  have hk := congrArg key h
  rw [key_joinLine] at hk
  split at hk <;> simp [key] at hk

theorem joinLine_ne_sleeping (env : Env) (e : Int) (i : Nat) :
    joinLine env e i ≠ "Sleeping before restarting.\n" := by
  intro h
  have hk := congrArg key h
  rw [key_joinLine] at hk
  split at hk <;> simp [key] at hk

theorem joinLine_ne_done (env : Env) (e : Int) (i : Nat) :
    joinLine env e i ≠ "Main thread done\n" := by
  intro h
  have hk := congrArg key h
  rw [key_joinLine] at hk
  split at hk <;> simp [key] at hk

theorem setvbufLine_ne_done (t : String) :
    "Failed to setvbuf: " ++ t ++ "\n" ≠ "Main thread done\n" := by
  intro h
  have hk := congrArg key h
  rw [key_setvbufLine] at hk
  simp [key] at hk

/-! ## Reading a list of calls -/

theorem lines_append (a b : List Action) : lines (a ++ b) = lines a ++ lines b := by
  induction a with
  | nil => rfl
  | cons x xs ih => cases x <;> simp [lines, ih]

theorem createSlots_append (a b : List Action) :
    createSlots (a ++ b) = createSlots a ++ createSlots b := by
  induction a with
  | nil => rfl
  | cons x xs ih => cases x <;> simp [createSlots, ih]

theorem joinSlots_append (a b : List Action) :
    joinSlots (a ++ b) = joinSlots a ++ joinSlots b := by
  induction a with
  | nil => rfl
  | cons x xs ih => cases x <;> simp [joinSlots, ih]

theorem createLine_ok (env : Env) (i : Nat) :
    createLine env 0 i = "Created thread " ++ fmtD i ++ "\n" := by
  simp [createLine]

theorem createLine_fail (env : Env) (e : Int) (i : Nat) (h : e ≠ 0) :
    createLine env e i =
      "Failed to create thread " ++ fmtD i ++ ": " ++ env.strerror e ++ "\n" := by
  simp [createLine, h]

theorem joinLine_ok (env : Env) (i : Nat) :
    joinLine env 0 i = "Joined thread " ++ fmtD i ++ "\n" := by
  simp [joinLine]

theorem joinLine_fail (env : Env) (e : Int) (i : Nat) (h : e ≠ 0) :
    joinLine env e i =
      "Failed to join thread " ++ fmtD i ++ ": " ++ env.strerror e ++ "\n" := by
  simp [joinLine, h]

/-! ## The spawn phase -/

/-- C1: the spawn loop, entered at its first test in any state and under any
outcomes of the calls, reaches line 53 after thirteen steps and not before;
the calls it makes are one creation for each index 0, 1, 2 in ascending order,
each followed by one report for that index: `Created thread i` when the
creation returned 0 and `Failed to create thread i: ` with the error text
otherwise.  A failure does not stop the later attempts: there are always
`NUMTHREADS` of them. -/
theorem spawn_phase_attempts_every_index (F : Bool) (env : Env) (s : State)
    (hloc : s.loc = Loc.spawnTest) (hi : s.i = 0) :
    (run F env 13 s).loc = Loc.printJoining ∧
    (∀ n, n < 13 → (run F env n s).loc.inSpawn = true) ∧
    (run F env 13 s).trace = s.trace ++ spawnActs env s.cycle ∧
    spawnActs env s.cycle =
      [Action.create 0 0, Action.print (createLine env (env.create s.cycle 0).ret 0),
       Action.create 1 1, Action.print (createLine env (env.create s.cycle 1).ret 1),
       Action.create 2 2, Action.print (createLine env (env.create s.cycle 2).ret 2)] ∧
    createSlots (spawnActs env s.cycle) = List.range NUMTHREADS ∧
    (createSlots (spawnActs env s.cycle)).length = NUMTHREADS ∧
    (∀ i, (env.create s.cycle i).ret = 0 →
      createLine env (env.create s.cycle i).ret i = "Created thread " ++ fmtD i ++ "\n") ∧
    (∀ i, (env.create s.cycle i).ret ≠ 0 →
      createLine env (env.create s.cycle i).ret i =
        "Failed to create thread " ++ fmtD i ++ ": " ++
          env.strerror (env.create s.cycle i).ret ++ "\n") := by
  refine ⟨?_, ?_, ?_, spawnActs_eq env s.cycle, rfl, rfl, ?_, ?_⟩
  · rw [spawn_phase_run F env s hloc hi]
  · intro n hn
    obtain ⟨loc, i, err, cycle, tid, threadNums, trace, ret⟩ := s
    simp only at hloc hi
    subst hloc hi
    interval_cases n <;> simp [run, step, NUMTHREADS, Loc.inSpawn]
  · rw [spawn_phase_run F env s hloc hi]
  · intro i h
    rw [h, createLine_ok]
  · intro i h
    exact createLine_fail env _ i h

/-- C1, at a concrete input: the creation of index 1 fails, the creations of
indices 0 and 2 are still attempted and reported. -/
theorem spawn_phase_attempts_every_index_witness :
    spawnEntry.loc = Loc.spawnTest ∧ spawnEntry.i = 0 ∧
    (run true envFail1 13 spawnEntry).loc = Loc.printJoining ∧
    (run true envFail1 13 spawnEntry).trace =
      [Action.setvbuf,
       Action.create 0 0, Action.print "Created thread 0\n",
       Action.create 1 1,
       Action.print "Failed to create thread 1: Resource temporarily unavailable\n",
       Action.create 2 2, Action.print "Created thread 2\n"] :=
  ⟨rfl, rfl, (spawn_phase_attempts_every_index true envFail1 spawnEntry rfl rfl).1,
    by decide⟩


/-! ## The join phase -/

/-- C2: the join loop, entered at its first test in any state and under any
outcomes of the calls, runs ten steps; the calls it makes are one join for
each index 0, 1, 2 in ascending order, on the identifier held in `tid[i]`,
each followed by one report for that index: `Joined thread i` when the join
returned 0 and `Failed to join thread i: ` with the error text otherwise.  In
a whole cycle the joins are issued for 0, 1, 2 whatever the creations
returned. -/
theorem join_phase_joins_every_index (F : Bool) (env : Env) (s : State)
    (hloc : s.loc = Loc.joinTest) (hi : s.i = 0) :
    (run F env 10 s).loc = (if F then Loc.printSleeping else Loc.printDone) ∧
    (∀ n, n < 10 → (run F env n s).loc.inJoin = true) ∧
    (run F env 10 s).trace = s.trace ++ joinActs env s.cycle s.tid ∧
    joinActs env s.cycle s.tid =
      [Action.join 0 (s.tid.getD 0 0), Action.print (joinLine env (env.join s.cycle 0) 0),
       Action.join 1 (s.tid.getD 1 0), Action.print (joinLine env (env.join s.cycle 1) 1),
       Action.join 2 (s.tid.getD 2 0), Action.print (joinLine env (env.join s.cycle 2) 2)] ∧
    joinSlots (joinActs env s.cycle s.tid) = List.range NUMTHREADS ∧
    (∀ i, env.join s.cycle i = 0 →
      joinLine env (env.join s.cycle i) i = "Joined thread " ++ fmtD i ++ "\n") ∧
    (∀ i, env.join s.cycle i ≠ 0 →
      joinLine env (env.join s.cycle i) i =
        "Failed to join thread " ++ fmtD i ++ ": " ++
          env.strerror (env.join s.cycle i) ++ "\n") ∧
    (∀ t : State, t.loc = Loc.cycleStart →
      (run F env 25 t).trace = t.trace ++ cycleActs env t.cycle t.tid ∧
      joinSlots (cycleActs env t.cycle t.tid) = List.range NUMTHREADS) := by
  refine ⟨?_, ?_, ?_, joinActs_eq env s.cycle s.tid, rfl, ?_, ?_, ?_⟩
  · rw [join_phase_run F env s hloc hi]
  · intro n hn
    obtain ⟨loc, i, err, cycle, tid, threadNums, trace, ret⟩ := s
    simp only at hloc hi
    subst hloc hi
    interval_cases n <;> simp [run, step, NUMTHREADS, Loc.inJoin]
  · rw [join_phase_run F env s hloc hi]
  · intro i h
    rw [h, joinLine_ok]
  · intro i h
    exact joinLine_fail env _ i h
  · intro t ht
    refine ⟨?_, rfl⟩
    rw [cycle_run F env t ht]

/-- C2, at a concrete input: the creation of index 1 has failed and left
`tid[1]` as it was; the joins are issued for 0, 1, 2, and the failed join of
index 1 is followed by the join of index 2. -/
theorem join_phase_joins_every_index_witness :
    joinEntry.loc = Loc.joinTest ∧ joinEntry.i = 0 ∧
    (run false envFail1 10 joinEntry).loc = Loc.printDone ∧
    (run false envFail1 10 joinEntry).trace =
      [Action.join 0 1, Action.print "Joined thread 0\n",
       Action.join 1 0, Action.print "Failed to join thread 1: No such process\n",
       Action.join 2 3, Action.print "Joined thread 2\n"] ∧
    joinSlots (run false envFail1 25 (cycleEntry 0 0 0)).trace = [0, 1, 2] :=
  ⟨rfl, rfl, (join_phase_joins_every_index false envFail1 joinEntry rfl rfl).1,
    by decide, by decide⟩


/-! ## The program without `FOREVER` -/

/-- C3, as stated, fails: `setvbuf` fails while all creations and joins
succeed; main then prints nine lines, the first of them the `setvbuf` report,
not the eight lines of the claim. -/
theorem main_once_lines_counterexample :
    (∀ i, i < NUMTHREADS → (envSetvbufFail.create 0 i).ret = 0) ∧
    (∀ i, i < NUMTHREADS → envSetvbufFail.join 0 i = 0) ∧
    (main false envSetvbufFail 28).loc = Loc.exited ∧
    lines (main false envSetvbufFail 28).trace =
      ["Failed to setvbuf: Unknown error\n",
       "Created thread 0\n", "Created thread 1\n", "Created thread 2\n",
       "Joining threads\n",
       "Joined thread 0\n", "Joined thread 1\n", "Joined thread 2\n",
       "Main thread done\n"] ∧
    lines (main false envSetvbufFail 28).trace ≠
      ["Created thread 0\n", "Created thread 1\n", "Created thread 2\n",
       "Joining threads\n",
       "Joined thread 0\n", "Joined thread 1\n", "Joined thread 2\n",
       "Main thread done\n"] := by
  refine ⟨by decide, by decide, by decide, by decide, by decide⟩

/-- C3, amended: without `FOREVER`, under any outcomes of the calls, main
exits after 28 steps with exit code 0 and does nothing afterwards; it has run
one cycle (one creation and one join for each index); `Main thread done` is
the last line it printed and was printed once.  When all creations and joins
succeed its lines are the `setvbuf` report, if `setvbuf` failed, followed by
three `Created thread i`, `Joining threads`, three `Joined thread i` and
`Main thread done`; when `setvbuf` succeeds too, they are these eight lines. -/
theorem main_once (env : Env) :
    (main false env 28).loc = Loc.exited ∧
    (main false env 28).ret = some 0 ∧
    (∀ n, 28 ≤ n → main false env n = main false env 28) ∧
    (main false env 28).trace =
      setvbufActs env ++ cycleActs env 0 init.tid ++ [Action.print "Main thread done\n"] ∧
    createSlots (main false env 28).trace = List.range NUMTHREADS ∧
    joinSlots (main false env 28).trace = List.range NUMTHREADS ∧
    (lines (main false env 28).trace).getLast? = some "Main thread done\n" ∧
    (lines (main false env 28).trace).count "Main thread done\n" = 1 ∧
    ((∀ i, i < NUMTHREADS → (env.create 0 i).ret = 0) →
     (∀ i, i < NUMTHREADS → env.join 0 i = 0) →
      lines (main false env 28).trace =
        lines (setvbufActs env) ++
        ["Created thread " ++ fmtD 0 ++ "\n", "Created thread " ++ fmtD 1 ++ "\n",
         "Created thread " ++ fmtD 2 ++ "\n",
         "Joining threads\n",
         "Joined thread " ++ fmtD 0 ++ "\n", "Joined thread " ++ fmtD 1 ++ "\n",
         "Joined thread " ++ fmtD 2 ++ "\n",
         "Main thread done\n"]) ∧
    (env.setvbufRet = 0 →
     (∀ i, i < NUMTHREADS → (env.create 0 i).ret = 0) →
     (∀ i, i < NUMTHREADS → env.join 0 i = 0) →
      lines (main false env 28).trace =
        ["Created thread " ++ fmtD 0 ++ "\n", "Created thread " ++ fmtD 1 ++ "\n",
         "Created thread " ++ fmtD 2 ++ "\n",
         "Joining threads\n",
         "Joined thread " ++ fmtD 0 ++ "\n", "Joined thread " ++ fmtD 1 ++ "\n",
         "Joined thread " ++ fmtD 2 ++ "\n",
         "Main thread done\n"]) := by
  simp only [main]
  have hsv : createSlots (setvbufActs env) = [] ∧ joinSlots (setvbufActs env) = [] ∧
      (lines (setvbufActs env)).count "Main thread done\n" = 0 := by
    unfold setvbufActs
    split <;> simp [createSlots, joinSlots, lines, List.count_cons, setvbufLine_ne_done]
  have hcount : (lines (cycleActs env 0 init.tid)).count "Main thread done\n" = 0 := by
    simp [cycleActs, spawnActs_eq, joinActs_eq, lines, List.count_cons,
      createLine_ne_done, joinLine_ne_done]
  have hlines : ∀ hc : (∀ i, i < NUMTHREADS → (env.create 0 i).ret = 0),
      ∀ hj : (∀ i, i < NUMTHREADS → env.join 0 i = 0),
      lines (cycleActs env 0 init.tid) =
        ["Created thread " ++ fmtD 0 ++ "\n", "Created thread " ++ fmtD 1 ++ "\n",
         "Created thread " ++ fmtD 2 ++ "\n",
         "Joining threads\n",
         "Joined thread " ++ fmtD 0 ++ "\n", "Joined thread " ++ fmtD 1 ++ "\n",
         "Joined thread " ++ fmtD 2 ++ "\n"] := by
    intro hc hj
    have c0 := hc 0 (by decide)
    have c1 := hc 1 (by decide)
    have c2 := hc 2 (by decide)
    have j0 := hj 0 (by decide)
    have j1 := hj 1 (by decide)
    have j2 := hj 2 (by decide)
    simp [cycleActs, spawnActs_eq, joinActs_eq, lines, c0, c1, c2, j0, j1, j2,
      createLine, joinLine]
  rw [main_once_run env]
  refine ⟨rfl, rfl, ?_, rfl, ?_, ?_, ?_, ?_, ?_, ?_⟩
  · intro n hn
    obtain ⟨m, rfl⟩ := Nat.exists_eq_add_of_le hn
    rw [run_add, main_once_run env, run_exited _ _ _ _ rfl]
  · simp only [createSlots_append, hsv.1]
    rfl
  · simp only [joinSlots_append, hsv.2.1]
    rfl
  · simp only [lines_append, lines]
    rw [List.getLast?_concat]
  · simp only [lines_append, List.count_append, hsv.2.2, hcount]
    simp [lines]
  · intro hc hj
    simp only [lines_append, hlines hc hj]
    simp [lines]
  · intro h0 hc hj
    have e : lines (setvbufActs env) = [] := by simp [setvbufActs, h0, lines]
    simp only [lines_append, hlines hc hj, e]
    simp [lines]

/-- C3 (amended), at a concrete input: all calls succeed. -/
theorem main_once_witness :
    envOk.setvbufRet = 0 ∧
    (∀ i, i < NUMTHREADS → (envOk.create 0 i).ret = 0) ∧
    (∀ i, i < NUMTHREADS → envOk.join 0 i = 0) ∧
    lines (main false envOk 28).trace =
      ["Created thread " ++ fmtD 0 ++ "\n", "Created thread " ++ fmtD 1 ++ "\n",
       "Created thread " ++ fmtD 2 ++ "\n",
       "Joining threads\n",
       "Joined thread " ++ fmtD 0 ++ "\n", "Joined thread " ++ fmtD 1 ++ "\n",
       "Joined thread " ++ fmtD 2 ++ "\n",
       "Main thread done\n"] ∧
    (main false envOk 28).ret = some 0 :=
  ⟨rfl, by decide, by decide,
    (main_once envOk).2.2.2.2.2.2.2.2.2 rfl (by decide) (by decide),
    (main_once envOk).2.1⟩


/-! ## The program with `FOREVER` -/

theorem run_succ (F : Bool) (env : Env) (n : Nat) (s : State) :
    run F env (n + 1) s = step F env (run F env n s) := by
  rw [run_add]
  rfl

theorem step_forever_not_done (env : Env) (s : State)
    (h1 : s.loc.atOrPastDone = false) (h2 : s.ret = none)
    (h3 : Action.print "Main thread done\n" ∉ s.trace) :
    (step true env s).loc.atOrPastDone = false ∧ (step true env s).ret = none ∧
    Action.print "Main thread done\n" ∉ (step true env s).trace := by
  obtain ⟨loc, i, err, cycle, tid, threadNums, trace, ret⟩ := s
  simp only at h1 h2 h3
  subst h2
  cases loc <;> simp only [step] <;> (try split) <;>
    simp [Loc.atOrPastDone, h3, (createLine_ne_done env err i).symm,
      (joinLine_ne_done env err i).symm] at h1 ⊢
  unfold setvbufActs
  split <;> simp [(setvbufLine_ne_done _).symm]

/-- C4: with `FOREVER` defined, under any outcomes of the calls, no state
main can reach is at or past the statement of line 69: `Main thread done` has
not been printed and main has not returned. -/
theorem forever_never_done (env : Env) (s : State) (h : Reachable true env s) :
    s.loc.atOrPastDone = false ∧ s.ret = none ∧
    Action.print "Main thread done\n" ∉ s.trace ∧
    "Main thread done\n" ∉ lines s.trace := by
  obtain ⟨n, rfl⟩ := h
  have key3 : (main true env n).loc.atOrPastDone = false ∧
      (main true env n).ret = none ∧
      Action.print "Main thread done\n" ∉ (main true env n).trace := by
    simp only [main]
    induction n with
    | zero => simp [run, init, Loc.atOrPastDone]
    | succ n ih =>
      rw [run_succ]
      exact step_forever_not_done env _ ih.1 ih.2.1 ih.2.2
  refine ⟨key3.1, key3.2.1, key3.2.2, ?_⟩
  have hmem : ∀ (l : List Action) (t : String), t ∈ lines l → Action.print t ∈ l := by
    intro l t
    induction l with
    | nil => simp [lines]
    | cons x xs ih =>
      cases x <;> simp [lines] <;> intro hx
      · exact ih hx
      · exact ih hx
      · exact ih hx
      · rcases hx with hx | hx
        · exact Or.inl hx
        · exact Or.inr (ih hx)
      · exact ih hx
  exact fun hx => key3.2.2 (hmem _ _ hx)

/-- C4, at a concrete input: the state after 1000 steps, the creation and the
join of index 1 failing in every cycle. -/
theorem forever_never_done_witness :
    Reachable true envFail1 (main true envFail1 1000) ∧
    (main true envFail1 1000).loc.atOrPastDone = false ∧
    (main true envFail1 1000).ret = none :=
  ⟨⟨1000, rfl⟩, (forever_never_done envFail1 _ ⟨1000, rfl⟩).1,
    (forever_never_done envFail1 _ ⟨1000, rfl⟩).2.1⟩


theorem first_call_of_cycle (F : Bool) (env : Env) (t : State) (h : t.loc = Loc.cycleStart) :
    (∀ n, n < 4 → (run F env n t).trace = t.trace) ∧
    (run F env 4 t).trace = t.trace ++ [Action.create 0 0] := by
  obtain ⟨loc, i, err, cycle, tid, threadNums, trace, ret⟩ := t
  simp only at h
  subst h
  constructor
  · intro n hn
    interval_cases n <;> simp [run, step, NUMTHREADS]
  · simp [run, step, NUMTHREADS]

/-- C5: with `FOREVER` defined, under any outcomes of the calls and for every
`k`, main reaches the head of cycle `k`; the calls of cycle `k` are those of
its spawn and join phases, ending with the join report of index 2, followed by
one `Sleeping before restarting.` and then `sleep(3)`; the cycle has no other
such line and no other `sleep`; the next call after the pause is the creation
of index 0 of cycle `k + 1`. -/
theorem sleeping_once_per_cycle (env : Env) (k : Nat) :
    (main true env (1 + 27 * k)).loc = Loc.cycleStart ∧
    (main true env (1 + 27 * k)).cycle = k ∧
    (main true env (1 + 27 * (k + 1))).trace =
      (main true env (1 + 27 * k)).trace ++ cycleActs env k (tidAt env k) ++
        [Action.print "Sleeping before restarting.\n", Action.sleep 3] ∧
    (cycleActs env k (tidAt env k)).getLast? =
      some (Action.print (joinLine env (env.join k (NUMTHREADS - 1)) (NUMTHREADS - 1))) ∧
    List.count (Action.print "Sleeping before restarting.\n")
      (cycleActs env k (tidAt env k) ++
        [Action.print "Sleeping before restarting.\n", Action.sleep 3]) = 1 ∧
    (∀ n, Action.sleep n ∉ cycleActs env k (tidAt env k)) ∧
    (main true env (1 + 27 * (k + 1))).loc = Loc.cycleStart ∧
    (main true env (1 + 27 * (k + 1))).cycle = k + 1 ∧
    (∀ n, n < 4 → (main true env (1 + 27 * (k + 1) + n)).trace =
      (main true env (1 + 27 * (k + 1))).trace) ∧
    (main true env (1 + 27 * (k + 1) + 4)).trace =
      (main true env (1 + 27 * (k + 1))).trace ++ [Action.create 0 0] := by
  simp only [main]
  obtain ⟨a1, a2, _, a4⟩ := run_cycles env k
  obtain ⟨b1, b2, _, b4⟩ := run_cycles env (k + 1)
  obtain ⟨c1, c2⟩ := first_call_of_cycle true env _ b1
  refine ⟨a1, a2, ?_, ?_, ?_, ?_, b1, b2, ?_, ?_⟩
  · rw [a4, b4]
    rfl
  · simp [cycleActs, joinActs_eq, NUMTHREADS]
  · simp [cycleActs, spawnActs_eq, joinActs_eq, List.count_cons,
      createLine_ne_sleeping, joinLine_ne_sleeping]
  · intro n
    simp [cycleActs, spawnActs_eq, joinActs_eq]
  · intro n hn
    rw [run_add]
    exact c1 n hn
  · rw [run_add]
    exact c2

/-! ## The order of a cycle -/

/-- C6: a cycle entered in any state, under any outcomes of the calls, makes
the calls of its spawn loop, prints `Joining threads`, then makes the calls of
its join loop.  That line is printed once in the cycle; before it come the
`NUMTHREADS` creations with their reports and no join or join report, after
it the joins with their reports and no creation or creation report. -/
theorem joining_once_between_phases (F : Bool) (env : Env) (s : State)
    (h : s.loc = Loc.cycleStart) :
    (run F env 25 s).trace =
      s.trace ++ (spawnActs env s.cycle ++ [Action.print "Joining threads\n"] ++
        joinActs env s.cycle (tidAfterSpawn env s.cycle s.tid)) ∧
    List.count (Action.print "Joining threads\n")
      (spawnActs env s.cycle ++ [Action.print "Joining threads\n"] ++
        joinActs env s.cycle (tidAfterSpawn env s.cycle s.tid)) = 1 ∧
    createSlots (spawnActs env s.cycle) = List.range NUMTHREADS ∧
    (lines (spawnActs env s.cycle)).length = NUMTHREADS ∧
    joinSlots (spawnActs env s.cycle) = [] ∧
    (∀ e j, Action.print (joinLine env e j) ∉ spawnActs env s.cycle) ∧
    joinSlots (joinActs env s.cycle (tidAfterSpawn env s.cycle s.tid)) =
      List.range NUMTHREADS ∧
    (lines (joinActs env s.cycle (tidAfterSpawn env s.cycle s.tid))).length = NUMTHREADS ∧
    createSlots (joinActs env s.cycle (tidAfterSpawn env s.cycle s.tid)) = [] ∧
    (∀ e j, Action.print (createLine env e j) ∉
      joinActs env s.cycle (tidAfterSpawn env s.cycle s.tid)) := by
  refine ⟨?_, ?_, rfl, rfl, rfl, ?_, rfl, rfl, rfl, ?_⟩
  · rw [cycle_run F env s h]
    rfl
  · simp [spawnActs_eq, joinActs_eq, List.count_cons,
      createLine_ne_joining, joinLine_ne_joining]
  · intro e j
    simp [spawnActs_eq, (createLine_ne_joinLine env _ _ _ _).symm]
  · intro e j
    simp [joinActs_eq, createLine_ne_joinLine]

/-- C6, at a concrete input: a cycle in which the creation and the join of
index 1 fail. -/
theorem joining_once_between_phases_witness :
    (cycleEntry 0 0 0).loc = Loc.cycleStart ∧
    (run true envFail1 25 (cycleEntry 0 0 0)).trace =
      [Action.create 0 0, Action.print "Created thread 0\n",
       Action.create 1 1,
       Action.print "Failed to create thread 1: Resource temporarily unavailable\n",
       Action.create 2 2, Action.print "Created thread 2\n",
       Action.print "Joining threads\n",
       Action.join 0 1, Action.print "Joined thread 0\n",
       Action.join 1 0, Action.print "Failed to join thread 1: No such process\n",
       Action.join 2 3, Action.print "Joined thread 2\n"] ∧
    List.count (Action.print "Joining threads\n")
      (spawnActs envFail1 0 ++ [Action.print "Joining threads\n"] ++
        joinActs envFail1 0 (tidAfterSpawn envFail1 0 (cycleEntry 0 0 0).tid)) = 1 :=
  ⟨rfl, by decide, (joining_once_between_phases true envFail1 (cycleEntry 0 0 0) rfl).2.1⟩


/-! ## The worker body -/

theorem busyLoop_spec (n : Nat) : ∀ (i : Int) (iters : Nat),
    (BUSY_BOUND - i).toNat = n → i ≤ BUSY_BOUND →
    busyLoop i iters = some (BUSY_BOUND, iters + n) := by
  induction n with
  | zero =>
    intro i iters hn hle
    have hi : i = BUSY_BOUND := by omega
    subst hi
    rw [busyLoop]
    simp
  | succ n ih =>
    intro i iters hn hle
    have hlt : i < BUSY_BOUND := by omega
    have hmax : i + 1 ≤ INT_MAX := by
      simp only [BUSY_BOUND, INT_MAX] at *
      omega
    rw [busyLoop]
    simp only [hlt, hmax, if_true]
    rw [ih (i + 1) (iters + 1) (by omega) (by omega)]
    congr 2
    omega

theorem busyLoop_zero : busyLoop 0 0 = some (268435455, 268435455) := by
  have h1 : (BUSY_BOUND - 0).toNat = 268435455 := by
    simp only [BUSY_BOUND]
    omega
  have h2 : (0 : Int) ≤ BUSY_BOUND := by
    simp only [BUSY_BOUND]
    omega
  have h3 := busyLoop_spec 268435455 0 0 h1 h2
  rw [h3]
  simp [BUSY_BOUND]

theorem doSomeThing_of_read (threadNums : List Int) (arg : Nat) (t : Int)
    (h : threadNums[arg]? = some t) :
    doSomeThing threadNums arg =
      some { ret := none,
             out := ["Running thread " ++ fmtD t ++ "\n",
                     "Finishing thread " ++ fmtD t ++ "\n"],
             iters := 268435455 } := by
  have hb := busyLoop_zero
  unfold doSomeThing
  generalize busyLoop 0 0 = r at hb ⊢
  subst hb
  rw [h]

/-- C7: whatever integer `t` the argument of `doSomeThing` points at, the call
finishes: its loop runs 268435455 iterations, the counter ending at
`0xfffffff`, which is at most `INT_MAX` (an overflow of the counter would make
the result `none`); it returns `NULL`; and it prints `Running thread t` and
then `Finishing thread t`, nothing else. -/
theorem doSomeThing_runs_then_finishes (threadNums : List Int) (arg : Nat) (t : Int)
    (h : threadNums[arg]? = some t) :
    doSomeThing threadNums arg =
      some { ret := none,
             out := ["Running thread " ++ fmtD t ++ "\n",
                     "Finishing thread " ++ fmtD t ++ "\n"],
             iters := 268435455 } ∧
    busyLoop 0 0 = some (268435455, 268435455) ∧
    (∀ (i : Int) (n : Nat), i ≤ BUSY_BOUND →
      busyLoop i n = some (BUSY_BOUND, n + (BUSY_BOUND - i).toNat)) ∧
    BUSY_BOUND = 268435455 ∧ BUSY_BOUND ≤ INT_MAX := by
  refine ⟨doSomeThing_of_read threadNums arg t h, busyLoop_zero, ?_, rfl, ?_⟩
  · intro i n hle
    exact busyLoop_spec _ i n rfl hle
  · simp only [BUSY_BOUND, INT_MAX]
    omega

/-- C7, at a concrete input: the worker of slot 1, and a negative value. -/
theorem doSomeThing_runs_then_finishes_witness :
    ([0, 1, 2] : List Int)[1]? = some 1 ∧
    doSomeThing [0, 1, 2] 1 =
      some { ret := none,
             out := ["Running thread " ++ fmtD 1 ++ "\n",
                     "Finishing thread " ++ fmtD 1 ++ "\n"],
             iters := 268435455 } ∧
    ([-7] : List Int)[0]? = some (-7) ∧
    doSomeThing [-7] 0 =
      some { ret := none,
             out := ["Running thread " ++ fmtD (-7) ++ "\n",
                     "Finishing thread " ++ fmtD (-7) ++ "\n"],
             iters := 268435455 } :=
  ⟨rfl, (doSomeThing_runs_then_finishes [0, 1, 2] 1 1 rfl).1,
    by decide, (doSomeThing_runs_then_finishes [-7] 0 (-7) (by decide)).1⟩


/-! ## What a cycle takes from the cycle before -/

theorem tidAfterSpawn_stored (env : Env) (c : Nat) (tid : List Handle)
    (hl : tid.length = NUMTHREADS) (i : Nat) (hi : i < NUMTHREADS) (h : Handle)
    (hs : (env.create c i).stored = some h) :
    (tidAfterSpawn env c tid).getD i 0 = h := by
  obtain ⟨x, y, z, rfl⟩ := List.length_eq_three.mp hl
  rw [tidAfterSpawn_eq]
  have h3 : i = 0 ∨ i = 1 ∨ i = 2 := by
    simp only [NUMTHREADS] at hi
    omega
  rcases h3 with rfl | rfl | rfl
  · cases h1 : (env.create c 1).stored <;> cases h2 : (env.create c 2).stored <;>
      simp [storeHandle, hs, h1, h2]
  · cases h0 : (env.create c 0).stored <;> cases h2 : (env.create c 2).stored <;>
      simp [storeHandle, hs, h0, h2]
  · cases h0 : (env.create c 0).stored <;> cases h1 : (env.create c 1).stored <;>
      simp [storeHandle, hs, h0, h1]

theorem tidAfterSpawn_all_stored (env : Env) (c : Nat) (tid : List Handle)
    (hl : tid.length = NUMTHREADS)
    (hs : ∀ i, i < NUMTHREADS → (env.create c i).stored ≠ none) :
    tidAfterSpawn env c tid =
      [((env.create c 0).stored).getD 0, ((env.create c 1).stored).getD 0,
       ((env.create c 2).stored).getD 0] := by
  obtain ⟨x, y, z, rfl⟩ := List.length_eq_three.mp hl
  rw [tidAfterSpawn_eq]
  have s0 := hs 0 (by decide)
  have s1 := hs 1 (by decide)
  have s2 := hs 2 (by decide)
  cases h0 : (env.create c 0).stored <;> cases h1 : (env.create c 1).stored <;>
    cases h2 : (env.create c 2).stored <;> simp_all [storeHandle]

/-- C9, as stated, fails: two runs of a cycle under the same outcomes, the
creation of index 1 failing and storing nothing.  The runs start with
different contents of `tid`, and the join of index 1 is passed the old
content of `tid[1]`: 7 in one run, 9 in the other.  The same happens in the
program itself: entered from `init`, cycle 1 is passed what cycle 0 left in
`tid[1]`, here 2 in one run and 12 in the other, the outcomes of cycle 1
being the same in both. -/
theorem cycle_old_handle_counterexample :
    (envFail1.create 0 1).stored = none ∧
    (run true envFail1 25 (cycleEntry 0 7 5)).trace =
      [Action.create 0 0, Action.print "Created thread 0\n",
       Action.create 1 1,
       Action.print "Failed to create thread 1: Resource temporarily unavailable\n",
       Action.create 2 2, Action.print "Created thread 2\n",
       Action.print "Joining threads\n",
       Action.join 0 1, Action.print "Joined thread 0\n",
       Action.join 1 7, Action.print "Failed to join thread 1: No such process\n",
       Action.join 2 3, Action.print "Joined thread 2\n"] ∧
    (run true envFail1 25 (cycleEntry 0 9 6)).trace =
      [Action.create 0 0, Action.print "Created thread 0\n",
       Action.create 1 1,
       Action.print "Failed to create thread 1: Resource temporarily unavailable\n",
       Action.create 2 2, Action.print "Created thread 2\n",
       Action.print "Joining threads\n",
       Action.join 0 1, Action.print "Joined thread 0\n",
       Action.join 1 9, Action.print "Failed to join thread 1: No such process\n",
       Action.join 2 3, Action.print "Joined thread 2\n"] ∧
    (run true envFail1 25 (cycleEntry 0 7 5)).trace ≠
      (run true envFail1 25 (cycleEntry 0 9 6)).trace ∧
    (main true (envStale 0) 28).loc = Loc.cycleStart ∧
    (main true (envStale 0) 28).cycle = 1 ∧
    (main true (envStale 0) 28).tid = [1, 2, 3] ∧
    (main true (envStale 10) 28).tid = [11, 12, 13] ∧
    (main true (envStale 0) 53).trace.drop 16 =
      [Action.create 0 0, Action.print "Created thread 0\n",
       Action.create 1 1,
       Action.print "Failed to create thread 1: Resource temporarily unavailable\n",
       Action.create 2 2, Action.print "Created thread 2\n",
       Action.print "Joining threads\n",
       Action.join 0 101, Action.print "Joined thread 0\n",
       Action.join 1 2, Action.print "Failed to join thread 1: No such process\n",
       Action.join 2 103, Action.print "Joined thread 2\n"] ∧
    (main true (envStale 10) 53).trace.drop 16 =
      [Action.create 0 0, Action.print "Created thread 0\n",
       Action.create 1 1,
       Action.print "Failed to create thread 1: Resource temporarily unavailable\n",
       Action.create 2 2, Action.print "Created thread 2\n",
       Action.print "Joining threads\n",
       Action.join 0 101, Action.print "Joined thread 0\n",
       Action.join 1 12, Action.print "Failed to join thread 1: No such process\n",
       Action.join 2 103, Action.print "Joined thread 2\n"] := by
  refine ⟨by decide, by decide, by decide, ?_, by decide, by decide, by decide, by decide,
    by decide, by decide⟩
  have e1 : Action.join 1 7 ∈ (run true envFail1 25 (cycleEntry 0 7 5)).trace := by decide
  have e2 : Action.join 1 7 ∉ (run true envFail1 25 (cycleEntry 0 9 6)).trace := by decide
  intro h
  exact e2 (h ▸ e1)

/-- C9, amended: two runs of a cycle that start from different contents of
`tid` and `threadNums` and see the same outcomes make the same creations with
the same arguments, issue their joins for the same indices in the same order,
print the same lines and leave the same contents in `threadNums`.  The
identifier passed to the join of index `i` is the one stored by this cycle's
creation of index `i` whenever that creation stored one; when every creation
of the cycle stored one, the two runs make the same calls throughout. -/
theorem cycle_independent_of_old_contents (F : Bool) (env : Env) (s1 s2 : State)
    (h1 : s1.loc = Loc.cycleStart) (h2 : s2.loc = Loc.cycleStart)
    (hc : s1.cycle = s2.cycle)
    (l1 : s1.tid.length = NUMTHREADS) (l2 : s2.tid.length = NUMTHREADS)
    (n1 : s1.threadNums.length = NUMTHREADS) (n2 : s2.threadNums.length = NUMTHREADS) :
    (run F env 25 s1).trace = s1.trace ++ cycleActs env s1.cycle s1.tid ∧
    (run F env 25 s2).trace = s2.trace ++ cycleActs env s1.cycle s2.tid ∧
    (cycleActs env s1.cycle s1.tid).filter isCreate =
      (cycleActs env s1.cycle s2.tid).filter isCreate ∧
    (cycleActs env s1.cycle s1.tid).filter isCreate =
      [Action.create 0 0, Action.create 1 1, Action.create 2 2] ∧
    joinSlots (cycleActs env s1.cycle s1.tid) = joinSlots (cycleActs env s1.cycle s2.tid) ∧
    lines (cycleActs env s1.cycle s1.tid) = lines (cycleActs env s1.cycle s2.tid) ∧
    (run F env 25 s1).threadNums = (run F env 25 s2).threadNums ∧
    (∀ i h, i < NUMTHREADS → (env.create s1.cycle i).stored = some h →
      (tidAfterSpawn env s1.cycle s1.tid).getD i 0 = h ∧
      Action.join i h ∈ cycleActs env s1.cycle s1.tid) ∧
    ((∀ i, i < NUMTHREADS → (env.create s1.cycle i).stored ≠ none) →
      cycleActs env s1.cycle s1.tid = cycleActs env s1.cycle s2.tid) := by
  refine ⟨?_, ?_, ?_, ?_, ?_, ?_, ?_, ?_, ?_⟩
  · rw [cycle_run F env s1 h1]
  · rw [cycle_run F env s2 h2, hc]
  · simp [cycleActs, spawnActs_eq, joinActs_eq, isCreate]
  · simp [cycleActs, spawnActs_eq, joinActs_eq, isCreate]
  · simp [cycleActs, spawnActs_eq, joinActs_eq, joinSlots]
  · simp [cycleActs, spawnActs_eq, joinActs_eq, lines]
  · rw [cycle_run F env s1 h1, cycle_run F env s2 h2]
    obtain ⟨x, y, z, e1⟩ := List.length_eq_three.mp n1
    obtain ⟨u, v, w, e2⟩ := List.length_eq_three.mp n2
    simp [e1, e2]
  · intro i h hi hs
    have hg := tidAfterSpawn_stored env s1.cycle s1.tid l1 i hi h hs
    refine ⟨hg, ?_⟩
    have h3 : i = 0 ∨ i = 1 ∨ i = 2 := by
      simp only [NUMTHREADS] at hi
      omega
    unfold cycleActs
    rw [joinActs_eq]
    apply List.mem_append_right
    rcases h3 with rfl | rfl | rfl <;> rw [hg] <;> simp
  · intro hs
    simp only [cycleActs]
    rw [tidAfterSpawn_all_stored env s1.cycle s1.tid l1 hs,
      tidAfterSpawn_all_stored env s1.cycle s2.tid l2 hs]

/-- C9 (amended), at a concrete input: every creation stores an identifier,
and the runs from different contents of the arrays make the same calls. -/
theorem cycle_independent_of_old_contents_witness :
    (cycleEntry 0 7 5).loc = Loc.cycleStart ∧ (cycleEntry 0 9 6).loc = Loc.cycleStart ∧
    (∀ i, i < NUMTHREADS → (envOk.create (cycleEntry 0 7 5).cycle i).stored ≠ none) ∧
    cycleActs envOk (cycleEntry 0 7 5).cycle (cycleEntry 0 7 5).tid =
      cycleActs envOk (cycleEntry 0 7 5).cycle (cycleEntry 0 9 6).tid ∧
    (run true envOk 25 (cycleEntry 0 7 5)).trace =
      [Action.create 0 0, Action.print "Created thread 0\n",
       Action.create 1 1, Action.print "Created thread 1\n",
       Action.create 2 2, Action.print "Created thread 2\n",
       Action.print "Joining threads\n",
       Action.join 0 1, Action.print "Joined thread 0\n",
       Action.join 1 2, Action.print "Joined thread 1\n",
       Action.join 2 3, Action.print "Joined thread 2\n"] ∧
    (run true envOk 25 (cycleEntry 0 9 6)).trace =
      [Action.create 0 0, Action.print "Created thread 0\n",
       Action.create 1 1, Action.print "Created thread 1\n",
       Action.create 2 2, Action.print "Created thread 2\n",
       Action.print "Joining threads\n",
       Action.join 0 1, Action.print "Joined thread 0\n",
       Action.join 1 2, Action.print "Joined thread 1\n",
       Action.join 2 3, Action.print "Joined thread 2\n"] :=
  ⟨rfl, rfl, by decide,
    (cycle_independent_of_old_contents true envOk (cycleEntry 0 7 5) (cycleEntry 0 9 6)
      rfl rfl rfl rfl rfl rfl rfl).2.2.2.2.2.2.2.2 (by decide),
    by decide, by decide⟩


/-! ## The identity array -/

theorem step_create_mem (F : Bool) (env : Env) (s : State) (j : Nat) :
    Action.create j j ∈ (step F env s).trace ↔
      Action.create j j ∈ s.trace ∨ (s.loc = Loc.spawnCreate ∧ s.i = j) := by
  obtain ⟨loc, i, err, cycle, tid, threadNums, trace, ret⟩ := s
  cases loc <;> cases F <;> simp only [step, setvbufActs] <;> (try split_ifs) <;>
    simp [eq_comm]

theorem step_threadNums (F : Bool) (env : Env) (s : State) :
    (step F env s).threadNums =
      if s.loc = Loc.spawnWrite then s.threadNums.set s.i (s.i : Int) else s.threadNums := by
  obtain ⟨loc, i, err, cycle, tid, threadNums, trace, ret⟩ := s
  cases loc <;> cases F <;> simp only [step] <;> (try split_ifs) <;> simp_all


theorem step_to_spawnWrite (F : Bool) (env : Env) (s : State)
    (h : (step F env s).loc = Loc.spawnWrite) :
    s.i < NUMTHREADS ∧ (step F env s).i = s.i := by
  obtain ⟨loc, i, err, cycle, tid, threadNums, trace, ret⟩ := s
  revert h
  cases loc <;> cases F <;> simp only [step] <;> (try split_ifs) <;> simp_all

theorem step_to_spawnCreate (F : Bool) (env : Env) (s : State)
    (h : (step F env s).loc = Loc.spawnCreate) :
    s.loc = Loc.spawnWrite ∧ (step F env s).i = s.i := by
  obtain ⟨loc, i, err, cycle, tid, threadNums, trace, ret⟩ := s
  revert h
  cases loc <;> cases F <;> simp only [step] <;> (try split_ifs) <;> simp_all

theorem identity_step (F : Bool) (env : Env) (s : State)
    (hl : s.threadNums.length = NUMTHREADS)
    (hc : ∀ j, j < NUMTHREADS → Action.create j j ∈ s.trace →
      s.threadNums[j]? = some (j : Int))
    (hw : s.loc = Loc.spawnWrite → s.i < NUMTHREADS)
    (hk : s.loc = Loc.spawnCreate → s.threadNums[s.i]? = some (s.i : Int)) :
    (step F env s).threadNums.length = NUMTHREADS ∧
    (∀ j, j < NUMTHREADS → Action.create j j ∈ (step F env s).trace →
      (step F env s).threadNums[j]? = some (j : Int)) ∧
    ((step F env s).loc = Loc.spawnWrite → (step F env s).i < NUMTHREADS) ∧
    ((step F env s).loc = Loc.spawnCreate →
      (step F env s).threadNums[(step F env s).i]? = some ((step F env s).i : Int)) := by
  refine ⟨?_, ?_, ?_, ?_⟩
  · rw [step_threadNums]
    split <;> simp [hl]
  · intro j hj hm
    rw [step_create_mem] at hm
    rw [step_threadNums]
    by_cases hsw : s.loc = Loc.spawnWrite
    · have hold : Action.create j j ∈ s.trace := by
        rcases hm with hm | ⟨hm, _⟩
        · exact hm
        · rw [hsw] at hm
          cases hm
      have hj2 := hc j hj hold
      simp only [hsw, if_true]
      rw [List.getElem?_set]
      split
      · rename_i hij
        subst hij
        simp [hl, hj]
      · exact hj2
    · simp only [hsw, if_false]
      rcases hm with hm | ⟨hm, hij⟩
      · exact hc j hj hm
      · subst hij
        exact hk hm
  · intro h
    obtain ⟨h1, h2⟩ := step_to_spawnWrite F env s h
    rw [h2]
    exact h1
  · intro h
    obtain ⟨h1, h2⟩ := step_to_spawnCreate F env s h
    rw [h2, step_threadNums]
    simp only [h1, if_true]
    rw [List.getElem?_set]
    simp [hl, hw h1]

theorem identity_invariant (F : Bool) (env : Env) (n : Nat) :
    (run F env n init).threadNums.length = NUMTHREADS ∧
    (∀ j, j < NUMTHREADS → Action.create j j ∈ (run F env n init).trace →
      (run F env n init).threadNums[j]? = some (j : Int)) ∧
    ((run F env n init).loc = Loc.spawnWrite → (run F env n init).i < NUMTHREADS) ∧
    ((run F env n init).loc = Loc.spawnCreate →
      (run F env n init).threadNums[(run F env n init).i]? =
        some ((run F env n init).i : Int)) := by
  induction n with
  | zero => simp [run, init]
  | succ n ih =>
    rw [run_succ]
    exact identity_step F env _ ih.1 ih.2.1 ih.2.2.1 ih.2.2.2

theorem create_mem_run (F : Bool) (env : Env) (j n : Nat) (s : State)
    (h : Action.create j j ∈ s.trace) : Action.create j j ∈ (run F env n s).trace := by
  induction n with
  | zero => exact h
  | succ n ih =>
    rw [run_succ, step_create_mem]
    exact Or.inl ih


/-- C10: in every state main can reach in which the creation of index `i` has
been attempted, `threadNums[i]` holds `i`, and it holds `i` in every state
after it, in this cycle and the later ones; a step of main leaves
`threadNums[j]` as it was or writes `j` to it.  So the worker of slot `i`,
whenever it reads its argument, prints `Running thread i` and
`Finishing thread i` with the number of main's `Created thread i`. -/
theorem threadNums_identity (F : Bool) (env : Env) (s : State) (hr : Reachable F env s)
    (i : Nat) (hi : i < NUMTHREADS) (hc : Action.create i i ∈ s.trace) :
    s.threadNums[i]? = some (i : Int) ∧
    (∀ n, (run F env n s).threadNums[i]? = some (i : Int)) ∧
    (∀ (t : State) (j : Nat), (step F env t).threadNums[j]? = t.threadNums[j]? ∨
      (step F env t).threadNums[j]? = some (j : Int)) ∧
    (∀ n, doSomeThing (run F env n s).threadNums i =
      some { ret := none,
             out := ["Running thread " ++ fmtD i ++ "\n",
                     "Finishing thread " ++ fmtD i ++ "\n"],
             iters := 268435455 }) ∧
    createLine env 0 i = "Created thread " ++ fmtD i ++ "\n" := by
  obtain ⟨m, rfl⟩ := hr
  have hc2 : Action.create i i ∈ (run F env m init).trace := hc
  simp only [main]
  have later : ∀ n, (run F env n (run F env m init)).threadNums[i]? = some (i : Int) := by
    intro n
    have hmem := create_mem_run F env i n _ hc2
    rw [← run_add] at hmem ⊢
    exact (identity_invariant F env (m + n)).2.1 i hi hmem
  refine ⟨later 0, later, ?_, ?_, createLine_ok env i⟩
  · intro t j
    rw [step_threadNums]
    split
    · rw [List.getElem?_set]
      split
      · rename_i hij
        subst hij
        split
        · exact Or.inr rfl
        · rename_i hlen
          left
          symm
          exact List.getElem?_eq_none (Nat.le_of_not_lt hlen)
      · exact Or.inl rfl
    · exact Or.inl rfl
  · intro n
    exact doSomeThing_of_read _ i i (later n)

/-- C10, at a concrete input: nine steps into the program the creation of
index 1 has been attempted and has failed; `threadNums[1]` is 1. -/
theorem threadNums_identity_witness :
    Reachable true envFail1 (main true envFail1 9) ∧
    1 < NUMTHREADS ∧
    Action.create 1 1 ∈ (main true envFail1 9).trace ∧
    (main true envFail1 9).threadNums = [0, 1, 0] ∧
    (main true envFail1 9).threadNums[1]? = some ((1 : Nat) : Int) :=
  ⟨⟨9, rfl⟩, by decide, by decide, by decide,
    (threadNums_identity true envFail1 _ ⟨9, rfl⟩ 1 (by decide) (by decide)).1⟩

end ThreadExample
